import Mathlib

/-!
Shallow embedding of the dataset-reconciliation core of this repository
(`src/dbt/adapters/bigquery/dataset_config.py`, `dataset.py`,
`dataset_config_applier.py`), together with theorems settling the frozen
claims about it.

Modelling conventions:
* Python `Optional[T]` becomes `Option T`; Python `None` becomes `none`.
* Python dicts with a fixed key schema become structures whose fields are
  `Option`-valued when the key may be absent; a key that is present with
  value `None` is identified with an absent key wherever the source reads
  the dict with `dict.get` (which returns `None` in both cases).
* Python dicts used as string-to-string mappings (labels, access-entry
  properties) are represented by their item lists `List (String × String)`;
  dict equality is modelled as list equality on the canonical item list.
* Python truthiness is made explicit: a string is truthy iff it is not
  `""`, a list/dict iff it is non-empty, an optional int iff it is present
  and not `0`, an optional string iff it is present and not `""`.
* The external warehouse client is modelled at its interface: a query
  either returns rows or raises one of the distinguishable error
  conditions; mutating DDL calls are recorded as an operation trace.
-/

/-- Python truthiness of a `str` value: truthy iff non-empty. -/
def truthyStr (s : String) : Bool := decide (s ≠ "")

/-- Python truthiness of an `Optional[str]` value: truthy iff present and non-empty. -/
def truthyOptStr : Option String → Bool
  | none => false
  | some s => decide (s ≠ "")

/-- Python truthiness of an `Optional[int]` value: truthy iff present and nonzero. -/
def truthyOptInt : Option Int → Bool
  | none => false
  | some n => decide (n ≠ 0)

/-- Embeds `BigQueryReplicationConfig` (dataset_config.py, lines 9-32):
a dataclass with fields `enabled` (default `True`), `replicas`
(default `[]`) and `primary_location` (default `None`). -/
structure BigQueryReplicationConfig where
  enabled : Bool := true
  replicas : List String := []
  primary_location : Option String := none
deriving DecidableEq

/-- Embeds the plain dict consumed and produced by
`BigQueryReplicationConfig.from_dict`/`to_dict`.  Each field is `none` when
the key is absent; a key present with value `None` is identified with an
absent key (the source reads every key with `dict.get`). -/
structure ReplicationRaw where
  enabled : Option Bool := none
  replicas : Option (List String) := none
  primary_location : Option String := none
deriving DecidableEq

/-- Embeds `BigQueryReplicationConfig.to_dict` (dataset_config.py, lines
17-23): emits all three keys; `primary_location` may carry `None`. -/
def BigQueryReplicationConfig.to_dict (c : BigQueryReplicationConfig) : ReplicationRaw :=
  { enabled := some c.enabled
    replicas := some c.replicas
    primary_location := c.primary_location }

/-- Embeds `BigQueryReplicationConfig.from_dict` (dataset_config.py, lines
25-32): `enabled` defaults to `True`, `replicas` to `[]`,
`primary_location` to `None`. -/
def BigQueryReplicationConfig.from_dict (d : ReplicationRaw) : BigQueryReplicationConfig :=
  { enabled := d.enabled.getD true
    replicas := d.replicas.getD []
    primary_location := d.primary_location }

/-- Python truthiness of the raw replication dict: truthy iff non-empty,
i.e. iff some key is present (under the identification of present-null
with absent). -/
def rawReplTruthy (d : ReplicationRaw) : Bool :=
  d.enabled.isSome || d.replicas.isSome || d.primary_location.isSome

/-- Embeds `BigQueryDatasetConfig` (dataset_config.py, lines 35-45): a
dataclass with required `name`, `location` defaulting to `"US"`, optional
replication, string-to-string labels, optional description and optional
expirations.  The `__post_init__` dict-coercion of `replication` is a
dynamic-typing affordance with no effect on the typed embedding. -/
structure BigQueryDatasetConfig where
  name : String
  location : String := "US"
  replication : Option BigQueryReplicationConfig := none
  labels : List (String × String) := []
  description : Option String := none
  default_table_expiration_ms : Option Int := none
  default_partition_expiration_ms : Option Int := none
deriving DecidableEq

/-- Embeds the plain dict consumed and produced by
`BigQueryDatasetConfig.from_dict`/`to_dict`; `none` marks an absent key. -/
structure DatasetRaw where
  name : Option String := none
  location : Option String := none
  replication : Option ReplicationRaw := none
  labels : Option (List (String × String)) := none
  description : Option String := none
  default_table_expiration_ms : Option Int := none
  default_partition_expiration_ms : Option Int := none
deriving DecidableEq

/-- Filters an optional string through the source's truthiness guard
(`if self.description:`): the key is emitted only for a non-empty string. -/
def emitOptStr : Option String → Option String
  | none => none
  | some s => if s = "" then none else some s

/-- Filters an optional int through the source's truthiness guard
(`if self.default_table_expiration_ms:`): the key is emitted only for a
nonzero value. -/
def emitOptInt : Option Int → Option Int
  | none => none
  | some n => if n = 0 then none else some n

/-- Embeds `BigQueryDatasetConfig.to_dict` (dataset_config.py, lines
52-72): always emits `name`, `location` and `labels`; emits `replication`
iff the (always-truthy) dataclass instance is present; emits
`description` and the two expirations only when truthy. -/
def BigQueryDatasetConfig.to_dict (c : BigQueryDatasetConfig) : DatasetRaw :=
  { name := some c.name
    location := some c.location
    replication := c.replication.map BigQueryReplicationConfig.to_dict
    labels := some c.labels
    description := emitOptStr c.description
    default_table_expiration_ms := emitOptInt c.default_table_expiration_ms
    default_partition_expiration_ms := emitOptInt c.default_partition_expiration_ms }

/-- Embeds `BigQueryDatasetConfig.from_dict` (dataset_config.py, lines
74-90): `name` comes from the argument (a `name` key in the data is
ignored); `location` defaults to `"US"`, `labels` to `{}`; the nested
replication dict is parsed only when present and truthy. -/
def BigQueryDatasetConfig.from_dict (name : String) (d : DatasetRaw) : BigQueryDatasetConfig :=
  { name := name
    location := d.location.getD "US"
    replication :=
      match d.replication with
      | some r => if rawReplTruthy r then some (BigQueryReplicationConfig.from_dict r) else none
      | none => none
    labels := d.labels.getD []
    description := d.description
    default_table_expiration_ms := d.default_table_expiration_ms
    default_partition_expiration_ms := d.default_partition_expiration_ms }

/-- Embeds `BigQueryDatasetConfig.has_replication` (dataset_config.py,
lines 97-99): replication present and enabled. -/
def BigQueryDatasetConfig.has_replication (c : BigQueryDatasetConfig) : Bool :=
  match c.replication with
  | some r => r.enabled
  | none => false

/-- Embeds `BigQueryDatasetConfig.validate` (dataset_config.py, lines
101-136): collects all violated invariants as messages, in source order
(name, location, then under enabled replication: empty replicas, missing
primary, invalid replica strings; finally the label type check).  In the
typed embedding the `isinstance` guards on labels always pass, and an
invalid replica is exactly an empty string. -/
def BigQueryDatasetConfig.validate (c : BigQueryDatasetConfig) : List String :=
  (if c.name = "" then ["Dataset name is required"] else []) ++
  (if c.location = "" then ["Dataset location is required"] else []) ++
  (if c.has_replication then
    (match c.replication with
     | some r =>
       (if r.replicas = [] then
         ["Dataset \x27" ++ c.name ++ "\x27: replication enabled but no replicas specified"]
        else []) ++
       (if truthyOptStr r.primary_location then []
        else ["Dataset \x27" ++ c.name ++ "\x27: replication enabled but no primary_location specified"]) ++
       ((r.replicas.filter (fun rep => rep = "")).map
         (fun rep => "Dataset \x27" ++ c.name ++ "\x27: invalid replica location: " ++ rep))
     | none => [])
   else [])

/-- Orders label items by key, modelling `sort_keys=True` on the inner
labels dict during serialization. -/
def insertByKey (kv : String × String) : List (String × String) → List (String × String)
  | [] => [kv]
  | x :: xs => if kv.1 ≤ x.1 then kv :: x :: xs else x :: insertByKey kv xs

/-- Insertion sort of label items by key. -/
def sortByKey : List (String × String) → List (String × String)
  | [] => []
  | x :: xs => insertByKey x (sortByKey xs)

/-- Serializes a JSON string value (the embedding's strings need no
escaping). -/
def jStr (s : String) : String := "\"" ++ s ++ "\""

/-- Serializes an optional JSON string value, `null` when absent. -/
def jOptStr : Option String → String
  | none => "null"
  | some s => jStr s

/-- Serializes a JSON list of strings. -/
def jStrList (l : List String) : String :=
  "[" ++ String.intercalate ", " (l.map jStr) ++ "]"

/-- Serializes the labels dict with sorted keys. -/
def jLabels (l : List (String × String)) : String :=
  "\x7b" ++
    String.intercalate ", " ((sortByKey l).map (fun kv => jStr kv.1 ++ ": " ++ jStr kv.2)) ++
  "\x7d"

/-- Serializes the replication dict emitted by `to_dict` with sorted keys
(`enabled`, `primary_location`, `replicas`), modelling
`json.dumps(..., sort_keys=True)` on that sub-object. -/
def ReplicationRaw.dumps (r : ReplicationRaw) : String :=
  "\x7b" ++
    String.intercalate ", "
      (((match r.enabled with
         | some b => ["\"enabled\": " ++ (if b then "true" else "false")]
         | none => []) ++
        ["\"primary_location\": " ++ jOptStr r.primary_location] ++
        (match r.replicas with
         | some l => ["\"replicas\": " ++ jStrList l]
         | none => []))) ++
  "\x7d"

/-- Serializes the dataset dict emitted by `to_dict` with keys in sorted
order, omitting absent keys, modelling `json.dumps(self.to_dict(),
sort_keys=True)` (dataset_config.py, line 94). -/
def DatasetRaw.dumps (d : DatasetRaw) : String :=
  "\x7b" ++
    String.intercalate ", "
      ((match d.default_partition_expiration_ms with
        | some n => ["\"default_partition_expiration_ms\": " ++ toString n]
        | none => []) ++
       (match d.default_table_expiration_ms with
        | some n => ["\"default_table_expiration_ms\": " ++ toString n]
        | none => []) ++
       (match d.description with
        | some s => ["\"description\": " ++ jStr s]
        | none => []) ++
       (match d.labels with
        | some l => ["\"labels\": " ++ jLabels l]
        | none => []) ++
       (match d.location with
        | some s => ["\"location\": " ++ jStr s]
        | none => []) ++
       (match d.name with
        | some s => ["\"name\": " ++ jStr s]
        | none => []) ++
       (match d.replication with
        | some r => ["\"replication\": " ++ r.dumps]
        | none => [])) ++
  "\x7d"

/-- Models the external `hashlib.sha256(s.encode()).hexdigest()[:16]`
(dataset_config.py, line 95) as a deterministic 64-bit fold rendered as 16
hex characters.  The digest algorithm itself is an external collaborator;
the theorems rely only on the digest being a function of the serialized
form. -/
def sha256Hex16 (s : String) : String :=
  let h := s.foldl (fun a c => (a * 1099511628211 + c.toNat) % (2 ^ 64)) 14695981039346656037
  String.mk ((List.range 16).map
    (fun i =>
      let v := h / 16 ^ (15 - i) % 16
      if v < 10 then Char.ofNat (48 + v) else Char.ofNat (87 + v)))

/-- Embeds `BigQueryDatasetConfig.compute_hash` (dataset_config.py, lines
92-95): the digest of the sorted-key serialization of `to_dict()`. -/
def BigQueryDatasetConfig.compute_hash (c : BigQueryDatasetConfig) : String :=
  sha256Hex16 (DatasetRaw.dumps c.to_dict)

/-- Embeds `DatasetConfigManager` (dataset_config.py, lines 139-176): its
only state is the name-to-config mapping, represented by its item list. -/
structure DatasetConfigManager where
  configs : List (String × BigQueryDatasetConfig) := []
deriving DecidableEq

/-- Embeds `DatasetConfigManager.get_config` (dataset_config.py, lines
158-160): dict lookup by schema name. -/
def DatasetConfigManager.get_config (m : DatasetConfigManager) (schema_name : String) :
    Option BigQueryDatasetConfig :=
  (m.configs.find? (fun kv => kv.1 == schema_name)).map (fun kv => kv.2)

/-- Embeds `DatasetConfigManager.has_config` (dataset_config.py, lines
162-164). -/
def DatasetConfigManager.has_config (m : DatasetConfigManager) (schema_name : String) : Bool :=
  (m.configs.find? (fun kv => kv.1 == schema_name)).isSome

/-- Embeds the fields of `google.cloud.bigquery.AccessEntry` read by
`dataset.py`: `role`, `entity_type` (both optional strings) and the
`_properties` dict, represented by its item list. -/
structure AccessEntry where
  role : Option String := none
  entity_type : Option String := none
  props : List (String × String) := []
deriving DecidableEq

/-- Embeds the fields of `google.cloud.bigquery.Dataset` read and written
by `dataset.py` and `dataset_config_applier.py`: addressing, the five
configurable attributes, and the access-entry list. -/
structure Dataset where
  project : String := ""
  dataset_id : String := ""
  location : Option String := none
  description : Option String := none
  labels : Option (List (String × String)) := none
  default_table_expiration_ms : Option Int := none
  default_partition_expiration_ms : Option Int := none
  access_entries : List AccessEntry := []
deriving DecidableEq

/-- Embeds `is_access_entry_in_dataset` (dataset.py, lines 12-31): scans
the live entries for one with equal role, equal entity type, and whose
property items are a subset of the candidate's property items
(`existing_entry._properties.items() <= access_entry._properties.items()`,
line 28 — the dict-items `<=` is set inclusion of key-value pairs). -/
def is_access_entry_in_dataset (dataset : Dataset) (access_entry : AccessEntry) : Bool :=
  dataset.access_entries.any fun existing_entry =>
    decide (existing_entry.role = access_entry.role) &&
    decide (existing_entry.entity_type = access_entry.entity_type) &&
    existing_entry.props.all fun kv => decide (kv ∈ access_entry.props)

/-- Embeds `add_access_entry_to_dataset` (dataset.py, lines 34-48):
appends the candidate to the live entry list. -/
def add_access_entry_to_dataset (dataset : Dataset) (access_entry : AccessEntry) : Dataset :=
  { dataset with access_entries := dataset.access_entries ++ [access_entry] }

/-- Embeds the distinguishable failure conditions of the warehouse
client's query interface (`google.api_core.exceptions`): `NotFound` and
`BadRequest` are caught by `get_dataset_replication_config`; every other
failure is represented by `other`. -/
inductive QueryError where
  | notFound
  | badRequest
  | other
deriving DecidableEq

/-- Embeds one row of the `INFORMATION_SCHEMA.SCHEMATA_REPLICAS` query
result: `replica_location` and `is_primary_replica`. -/
structure ReplicaRow where
  replica_location : String
  is_primary_replica : Bool
deriving DecidableEq

/-- Embeds the `{"replicas": ..., "primary": ...}` dict built by
`get_dataset_replication_config`. -/
structure ReplCfg where
  replicas : List String := []
  primary : Option String := none
deriving DecidableEq

/-- Embeds `get_dataset_replication_config` (dataset.py, lines 51-84) over
the modelled client response.  On a successful query the replicas are
accumulated in row order and the last row flagged `is_primary_replica`
wins; on `NotFound`/`BadRequest` the function logs a warning and returns
the empty configuration; any other failure propagates.  (The source lines
82-84 are unreachable duplicated text sitting after the function's
returns; they contribute no behaviour and in fact break CPython's parse of
the module — see the claim records for `apply_dataset_replication`.) -/
def get_dataset_replication_config (response : Except QueryError (List ReplicaRow)) :
    Except QueryError ReplCfg :=
  match response with
  | .ok rows =>
    .ok { replicas := rows.map (fun r => r.replica_location)
          primary := rows.foldl
            (fun acc r => if r.is_primary_replica then some r.replica_location else acc) none }
  | .error e =>
    match e with
    | .notFound => .ok {}
    | .badRequest => .ok {}
    | .other => .error .other

/-- Embeds `needs_replication_update` (dataset.py, lines 87-108): true
when the observed and desired replica lists differ as sets, otherwise the
truthiness-guarded primary comparison
`bool(desired_primary and current_config.get("primary") != desired_primary)`. -/
def needs_replication_update (current_config : ReplCfg) (desired_replicas : List String)
    (desired_primary : Option String := none) : Bool :=
  if current_config.replicas.all (fun x => decide (x ∈ desired_replicas)) &&
     desired_replicas.all (fun x => decide (x ∈ current_config.replicas)) then
    truthyOptStr desired_primary && decide (current_config.primary ≠ desired_primary)
  else
    true

/-- Embeds the three mutating DDL statements issued by
`apply_dataset_replication`: add-replica, drop-replica and
set-default-replica. -/
inductive ReplicationOp where
  | addReplica (location : String)
  | dropReplica (location : String)
  | setPrimary (location : String)
deriving DecidableEq

/-- Embeds `apply_dataset_replication` (dataset.py, lines 111-176) as the
trace of mutating `client.query` calls it issues, with every call
succeeding and the observed state supplied as `current`.

The source of the remove loop (lines 153-176) does not parse: its
`try:` block is followed by the set-primary `if`-block instead of an
`except` clause, a second `client.query(sql).result()` sits at the end of
that `if`-block, and the trailing `except` handler carries the
set-primary failure message.  This definition takes the written
indentation at face value: per removed location the drop statement is
issued, then, when `desired_primary` is truthy, either the current `sql`
is re-issued (primary missing from the desired set, or already current)
or the set-primary statement is issued twice (once by the inner `try`,
once by the trailing duplicated call, `sql` having been reassigned).
Python's unordered set iteration is determinized to first-occurrence
order; the claims are settled on inputs whose add/remove sets have at
most one element, where the order is immaterial. -/
def apply_dataset_replication (current : ReplCfg) (desired_replicas : List String)
    (desired_primary : Option String := none) : List ReplicationOp :=
  if !needs_replication_update current desired_replicas desired_primary then []
  else
    let currentSet := current.replicas.dedup
    let desiredSet := desired_replicas.dedup
    let toAdd := desiredSet.filter (fun l => decide (l ∉ currentSet))
    let toRemove := currentSet.filter (fun l => decide (l ∉ desiredSet))
    toAdd.map ReplicationOp.addReplica ++
      toRemove.flatMap (fun l =>
        ReplicationOp.dropReplica l ::
          (match desired_primary with
           | none => []
           | some p =>
             if p = "" then []
             else if decide (p ∉ desiredSet) then [ReplicationOp.dropReplica l]
             else if decide (current.primary ≠ some p) then
               [ReplicationOp.setPrimary p, ReplicationOp.setPrimary p]
             else [ReplicationOp.dropReplica l]))

/-- Reads the live labels the way `should_update_dataset` does
(`existing_dataset.labels or {}`): a falsy value (absent or empty dict)
becomes the empty dict. -/
def labelsOrEmpty : Option (List (String × String)) → List (String × String)
  | none => []
  | some l => l

/-- Embeds `DatasetConfigApplier.apply_config_to_dataset`
(dataset_config_applier.py, lines 21-63): with no registered config the
dataset is returned unchanged; otherwise each of the five attributes is
overwritten exactly when the corresponding config value is truthy.  The
five guarded assignments of the source touch five distinct attributes, so
the sequence is modelled as one simultaneous guarded record update. -/
def apply_config_to_dataset (m : DatasetConfigManager) (dataset : Dataset)
    (schema_name : String) : Dataset :=
  match m.get_config schema_name with
  | none => dataset
  | some config =>
    { dataset with
      location := if truthyStr config.location then some config.location else dataset.location
      description :=
        if truthyOptStr config.description then config.description else dataset.description
      labels := if !config.labels.isEmpty then some config.labels else dataset.labels
      default_table_expiration_ms :=
        if truthyOptInt config.default_table_expiration_ms then
          config.default_table_expiration_ms
        else dataset.default_table_expiration_ms
      default_partition_expiration_ms :=
        if truthyOptInt config.default_partition_expiration_ms then
          config.default_partition_expiration_ms
        else dataset.default_partition_expiration_ms }

/-- Embeds `DatasetConfigApplier.should_update_dataset`
(dataset_config_applier.py, lines 86-126): false with no registered
config; otherwise true iff some truthiness-guarded config value differs
from the corresponding live attribute.  The source's sequence of early
returns is modelled as a disjunction, which is equivalent for a pure
predicate. -/
def should_update_dataset (m : DatasetConfigManager) (existing_dataset : Dataset)
    (schema_name : String) : Bool :=
  match m.get_config schema_name with
  | none => false
  | some config =>
    (truthyStr config.location &&
      decide (existing_dataset.location ≠ some config.location)) ||
    (truthyOptStr config.description &&
      decide (existing_dataset.description ≠ config.description)) ||
    (!config.labels.isEmpty &&
      decide (labelsOrEmpty existing_dataset.labels ≠ config.labels)) ||
    (truthyOptInt config.default_table_expiration_ms &&
      decide (existing_dataset.default_table_expiration_ms ≠ config.default_table_expiration_ms)) ||
    (truthyOptInt config.default_partition_expiration_ms &&
      decide (existing_dataset.default_partition_expiration_ms ≠
        config.default_partition_expiration_ms))

/-- Embeds `DatasetConfigApplier.get_replication_config`
(dataset_config_applier.py, lines 128-142): `None` when no config is
registered or replication is absent or disabled, otherwise the
replication's dict form. -/
def get_replication_config (m : DatasetConfigManager) (schema_name : String) :
    Option ReplicationRaw :=
  match m.get_config schema_name with
  | none => none
  | some config =>
    if config.has_replication then config.replication.map BigQueryReplicationConfig.to_dict
    else none

/-- States C1's containment predicate following the spec's words: some
live entry has equal role, equal entity type, and a property set that is
a superset of the candidate's (candidate ⊆ live).  Declared only to be
compared against `is_access_entry_in_dataset`, which the source defines
with the opposite inclusion. -/
def specContainsEntrySuperset (dataset : Dataset) (access_entry : AccessEntry) : Prop :=
  ∃ ex ∈ dataset.access_entries,
    ex.role = access_entry.role ∧ ex.entity_type = access_entry.entity_type ∧
      ∀ kv ∈ access_entry.props, kv ∈ ex.props

/-- C1 counterexample: a live entry whose properties strictly contain the
candidate's properties satisfies the claim's candidate-subset-of-live
condition, yet `is_access_entry_in_dataset` returns `false`, because the
source (dataset.py, line 28) tests `existing ⊆ candidate`, not
`candidate ⊆ existing`. -/
theorem C1_counterexample :
    specContainsEntrySuperset
      { access_entries := [{ role := some "READER", entity_type := some "userByEmail",
                             props := [("a", "1"), ("b", "2")] }] }
      { role := some "READER", entity_type := some "userByEmail", props := [("a", "1")] } ∧
    is_access_entry_in_dataset
      { access_entries := [{ role := some "READER", entity_type := some "userByEmail",
                             props := [("a", "1"), ("b", "2")] }] }
      { role := some "READER", entity_type := some "userByEmail", props := [("a", "1")] }
      = false := by
  refine ⟨⟨{ role := some "READER", entity_type := some "userByEmail",
             props := [("a", "1"), ("b", "2")] }, by decide⟩, by decide⟩

/-- C1 (amended): `is_access_entry_in_dataset dataset entry` returns true
iff some entry of `dataset.access_entries` has equal role, equal entity
type, and a property set that is a subset of the candidate entry's
property set (the live entry's properties may be a strict subset, the
locally created candidate carrying extra fields). -/
theorem C1_amended_entry_membership (dataset : Dataset) (access_entry : AccessEntry) :
    is_access_entry_in_dataset dataset access_entry = true ↔
      ∃ ex ∈ dataset.access_entries,
        ex.role = access_entry.role ∧ ex.entity_type = access_entry.entity_type ∧
          ∀ kv ∈ ex.props, kv ∈ access_entry.props := by
  simp [is_access_entry_in_dataset, List.any_eq_true, List.all_eq_true, and_assoc]

/-- C2 counterexample: a config with replication enabled and a primary
location that is not an element of its replicas passes `validate()` with
no errors at all — the source (dataset_config.py, lines 101-136) never
checks membership of the primary in the replicas. -/
theorem C2_counterexample :
    ({ name := "test",
       replication := some { enabled := true, replicas := ["us-east1"],
                             primary_location := some "us-west1" } } :
        BigQueryDatasetConfig).has_replication = true ∧
    "us-west1" ∉ ["us-east1"] ∧
    ({ name := "test",
       replication := some { enabled := true, replicas := ["us-east1"],
                             primary_location := some "us-west1" } } :
        BigQueryDatasetConfig).validate = [] := by
  refine ⟨rfl, by decide, ?_⟩
  decide

/-- C2 (amended): for every config with enabled replication whose name,
location, replicas and primary are non-empty, `validate()` returns the
empty list even when the primary is not an element of the replicas — the
primary-not-in-replicas inconsistency is not a validation error (it is
instead skipped with a warning at replication-apply time). -/
theorem C2_amended_primary_membership_unchecked (name loc p : String)
    (replicas : List String) (lbls : List (String × String))
    (hname : name ≠ "") (hloc : loc ≠ "") (hreplicas : replicas ≠ [])
    (hall : ∀ r ∈ replicas, r ≠ "") (hp : p ≠ "") (_hmem : p ∉ replicas) :
    ({ name := name, location := loc,
       replication := some { enabled := true, replicas := replicas,
                             primary_location := some p },
       labels := lbls } : BigQueryDatasetConfig).validate = [] := by
  have hfilter : replicas.filter (fun rep => rep = "") = [] := by
    rw [List.filter_eq_nil_iff]
    intro a ha
    simpa using hall a ha
  simp [BigQueryDatasetConfig.validate, BigQueryDatasetConfig.has_replication,
        truthyOptStr, hname, hloc, hreplicas, hp, hfilter]

/-- C2 amended witness at a concrete config whose primary lies outside
its replicas. -/
theorem C2_amended_witness :
    ("us-west1" : String) ≠ "" ∧ "us-west1" ∉ ["us-east1"] ∧
    ({ name := "test", location := "US",
       replication := some { enabled := true, replicas := ["us-east1"],
                             primary_location := some "us-west1" },
       labels := [] } : BigQueryDatasetConfig).validate = [] :=
  ⟨by decide, by decide,
    C2_amended_primary_membership_unchecked "test" "US" "us-west1" ["us-east1"] []
      (by decide) (by decide) (by decide) (by decide) (by decide) (by decide)⟩

/-- C3 (code bug): at observed `{replicas: [A, B], primary: A}` and
desired `{replicas: [B, C], primary: C}` the reconciler as laid out in the
source issues add-replica C and drop-replica A but then issues the
set-default-replica C statement twice, from inside the drop-replica loop
— not exactly the three operations the claim requires with the primary
set once after membership is settled.  (The spliced source block does not
even parse; this evaluates the literal-layout model.) -/
theorem C3_spliced_trace :
    apply_dataset_replication { replicas := ["A", "B"], primary := some "A" } ["B", "C"]
        (some "C") =
      [ReplicationOp.addReplica "C", ReplicationOp.dropReplica "A",
       ReplicationOp.setPrimary "C", ReplicationOp.setPrimary "C"] := by
  decide

/-- C4 counterexample: with observed `{replicas: [], primary: None}`,
desired replicas `[]` and desired primary `some ""`, the desired primary
is set (`isSome`) and differs from the observed primary while the replica
sets are equal, so the claim requires `true`; the code's truthiness guard
(`bool(desired_primary and ...)`, dataset.py line 108) treats the empty
string as unset and returns `false`. -/
theorem C4_counterexample :
    (some "" : Option String).isSome = true ∧
    ({ replicas := [], primary := none } : ReplCfg).primary ≠ some "" ∧
    ({ replicas := [], primary := none } : ReplCfg).replicas.toFinset =
      ([] : List String).toFinset ∧
    needs_replication_update { replicas := [], primary := none } [] (some "") = false := by
  refine ⟨rfl, by decide, rfl, rfl⟩

/-- C4 (amended): `needs_replication_update` returns true iff the
observed and desired replica lists differ as sets (order-insensitive), or
the desired primary is set to a non-empty string and differs from the
observed primary; an empty-string desired primary behaves as unset. -/
theorem C4_amended_needs_update_iff (cur : ReplCfg) (dr : List String) (dp : Option String) :
    needs_replication_update cur dr dp = true ↔
      cur.replicas.toFinset ≠ dr.toFinset ∨
        (truthyOptStr dp = true ∧ cur.primary ≠ dp) := by
  have hc : (cur.replicas.all (fun x => decide (x ∈ dr)) &&
      dr.all (fun x => decide (x ∈ cur.replicas))) = true ↔
      cur.replicas.toFinset = dr.toFinset := by
    simp only [Bool.and_eq_true, List.all_eq_true, decide_eq_true_iff, Finset.ext_iff,
      List.mem_toFinset]
    constructor
    · exact fun h a => ⟨fun ha => h.1 a ha, fun ha => h.2 a ha⟩
    · exact fun h => ⟨fun a ha => (h a).mp ha, fun a ha => (h a).mpr ha⟩
  unfold needs_replication_update
  cases hcb : (cur.replicas.all (fun x => decide (x ∈ dr)) &&
      dr.all (fun x => decide (x ∈ cur.replicas))) with
  | true =>
    have heq : cur.replicas.toFinset = dr.toFinset := hc.mp hcb
    simp [hcb, heq, Bool.and_eq_true, decide_eq_true_iff]
  | false =>
    have hne : cur.replicas.toFinset ≠ dr.toFinset := fun h => by
      rw [← hc] at h
      exact absurd h (by simp [hcb])
    simp [hcb, hne]

/-- C5 (code bug): at observed `{replicas: [A, B], primary: A}` and
desired `{replicas: [A, B], primary: B}` an update is needed (the primary
differs), yet the reconciler issues zero mutating calls — in the source
as laid out, the set-default-replica statement is reachable only from
inside the drop-replica loop, which is empty here — so the warehouse
state cannot change and a second invocation again decides that an update
is needed, contradicting the claim's second-run behaviour.  (The spliced
source block does not even parse; this evaluates the literal-layout
model.) -/
theorem C5_no_primary_convergence :
    needs_replication_update { replicas := ["A", "B"], primary := some "A" } ["A", "B"]
        (some "B") = true ∧
    apply_dataset_replication { replicas := ["A", "B"], primary := some "A" } ["A", "B"]
        (some "B") = [] := by
  refine ⟨rfl, by decide⟩

/-- Emitting an optional string through the source's truthiness guard is
the identity unless the value is the empty string. -/
theorem emitOptStr_eq_self (o : Option String) (h : o ≠ some "") : emitOptStr o = o := by
  cases o with
  | none => rfl
  | some s =>
    have hs : s ≠ "" := fun hs => h (by rw [hs])
    simp [emitOptStr, hs]

/-- Emitting an optional int through the source's truthiness guard is the
identity unless the value is zero. -/
theorem emitOptInt_eq_self (o : Option Int) (h : o ≠ some 0) : emitOptInt o = o := by
  cases o with
  | none => rfl
  | some n =>
    have hn : n ≠ 0 := fun hn => h (by rw [hn])
    simp [emitOptInt, hn]

/-- A replication config round-trips exactly through its dict form. -/
theorem replication_roundtrip (r : BigQueryReplicationConfig) :
    BigQueryReplicationConfig.from_dict r.to_dict = r := by
  cases r
  simp [BigQueryReplicationConfig.from_dict, BigQueryReplicationConfig.to_dict]

/-- The dict emitted by a replication config is always truthy (it always
carries the `enabled` key). -/
theorem rawReplTruthy_to_dict (r : BigQueryReplicationConfig) :
    rawReplTruthy r.to_dict = true := by
  simp [rawReplTruthy, BigQueryReplicationConfig.to_dict]

/-- C6 counterexample: the config `{name: "t", location: "US",
description: ""}` passes validation with no errors, yet
`from_dict(name, to_dict())` does not reproduce it field-for-field — the
truthiness guard in `to_dict` drops the empty-string description, which
comes back as `None`. -/
theorem C6_counterexample :
    ({ name := "t", description := some "" } : BigQueryDatasetConfig).validate = [] ∧
    BigQueryDatasetConfig.from_dict "t"
        ({ name := "t", description := some "" } : BigQueryDatasetConfig).to_dict ≠
      { name := "t", description := some "" } := by
  refine ⟨by decide, by decide⟩

/-- C6 (amended): for every config that passes validation and whose
optional description is not the empty string and whose optional
expirations are not zero (each falsy-able optional is either absent or
truthy), `from_dict(name, to_dict())` is field-for-field equal to the
original and the round-tripped config's `compute_hash()` equals the
original's. -/
theorem C6_amended_roundtrip (c : BigQueryDatasetConfig)
    (_hv : c.validate = [])
    (hd : c.description ≠ some "")
    (ht : c.default_table_expiration_ms ≠ some 0)
    (hp : c.default_partition_expiration_ms ≠ some 0) :
    BigQueryDatasetConfig.from_dict c.name c.to_dict = c ∧
    (BigQueryDatasetConfig.from_dict c.name c.to_dict).compute_hash = c.compute_hash := by
  have hrt : BigQueryDatasetConfig.from_dict c.name c.to_dict = c := by
    obtain ⟨name, loc, repl, lbls, desc, dte, dpe⟩ := c
    simp only [BigQueryDatasetConfig.from_dict, BigQueryDatasetConfig.to_dict] at *
    cases repl with
    | none =>
      simp [emitOptStr_eq_self _ hd, emitOptInt_eq_self _ ht, emitOptInt_eq_self _ hp]
    | some r =>
      simp [Option.map_some, rawReplTruthy_to_dict, replication_roundtrip,
        emitOptStr_eq_self _ hd, emitOptInt_eq_self _ ht, emitOptInt_eq_self _ hp]
  exact ⟨hrt, by rw [hrt]⟩

/-- C6 amended witness at a concrete validated config with replication,
labels, description and a table expiration. -/
theorem C6_amended_witness :
    ({ name := "analytics", location := "EU",
       replication := some { enabled := true, replicas := ["us-east1"],
                             primary_location := some "us-east1" },
       labels := [("env", "prod")], description := some "d",
       default_table_expiration_ms := some 1 } : BigQueryDatasetConfig).validate = [] ∧
    BigQueryDatasetConfig.from_dict "analytics"
        ({ name := "analytics", location := "EU",
           replication := some { enabled := true, replicas := ["us-east1"],
                                 primary_location := some "us-east1" },
           labels := [("env", "prod")], description := some "d",
           default_table_expiration_ms := some 1 } : BigQueryDatasetConfig).to_dict =
      { name := "analytics", location := "EU",
        replication := some { enabled := true, replicas := ["us-east1"],
                              primary_location := some "us-east1" },
        labels := [("env", "prod")], description := some "d",
        default_table_expiration_ms := some 1 } :=
  ⟨by decide,
    (C6_amended_roundtrip
      { name := "analytics", location := "EU",
        replication := some { enabled := true, replicas := ["us-east1"],
                              primary_location := some "us-east1" },
        labels := [("env", "prod")], description := some "d",
        default_table_expiration_ms := some 1 }
      (by decide) (by decide) (by decide) (by decide)).1⟩

/-- C7: when the replica-metadata query fails with the not-found or
bad-request condition, `get_dataset_replication_config` returns
`{replicas: [], primary: None}` instead of raising; any other failure
propagates to the caller. -/
theorem C7_notfound_badrequest_default :
    get_dataset_replication_config (.error .notFound) =
      .ok { replicas := [], primary := none } ∧
    get_dataset_replication_config (.error .badRequest) =
      .ok { replicas := [], primary := none } ∧
    get_dataset_replication_config (.error .other) = .error .other :=
  ⟨rfl, rfl, rfl⟩

/-- C8: with a registered config, `apply_config_to_dataset` overwrites
each of location, description, labels and the two expirations exactly
when the corresponding config value is truthy/non-empty, leaves each of
them unchanged otherwise, and modifies no attribute outside these five
(project, dataset id and access entries are untouched). -/
theorem C8_apply_sets_iff_truthy (m : DatasetConfigManager) (d : Dataset) (s : String)
    (config : BigQueryDatasetConfig) (h : m.get_config s = some config) :
    (apply_config_to_dataset m d s).location =
      (if truthyStr config.location then some config.location else d.location) ∧
    (apply_config_to_dataset m d s).description =
      (if truthyOptStr config.description then config.description else d.description) ∧
    (apply_config_to_dataset m d s).labels =
      (if !config.labels.isEmpty then some config.labels else d.labels) ∧
    (apply_config_to_dataset m d s).default_table_expiration_ms =
      (if truthyOptInt config.default_table_expiration_ms then
        config.default_table_expiration_ms else d.default_table_expiration_ms) ∧
    (apply_config_to_dataset m d s).default_partition_expiration_ms =
      (if truthyOptInt config.default_partition_expiration_ms then
        config.default_partition_expiration_ms else d.default_partition_expiration_ms) ∧
    (apply_config_to_dataset m d s).project = d.project ∧
    (apply_config_to_dataset m d s).dataset_id = d.dataset_id ∧
    (apply_config_to_dataset m d s).access_entries = d.access_entries := by
  simp [apply_config_to_dataset, h]

/-- C8 witness: a registered config for schema `analytics` whose location
is truthy and whose description is absent, applied to a bare dataset. -/
theorem C8_witness :
    ({ configs := [("analytics", { name := "analytics", location := "EU" })] } :
        DatasetConfigManager).get_config "analytics" =
      some { name := "analytics", location := "EU" } ∧
    (apply_config_to_dataset
        { configs := [("analytics", { name := "analytics", location := "EU" })] }
        {} "analytics").location =
      (if truthyStr ({ name := "analytics", location := "EU" } :
          BigQueryDatasetConfig).location then
        some ({ name := "analytics", location := "EU" } : BigQueryDatasetConfig).location
      else ({} : Dataset).location) :=
  ⟨by decide,
    (C8_apply_sets_iff_truthy
      { configs := [("analytics", { name := "analytics", location := "EU" })] }
      {} "analytics" { name := "analytics", location := "EU" } (by decide)).1⟩

/-- C9: applying the registered configuration to any dataset and then
checking for drift converges — `should_update_dataset` returns false on
the result of `apply_config_to_dataset` for the same schema name. -/
theorem C9_apply_then_no_update (m : DatasetConfigManager) (d : Dataset) (s : String) :
    should_update_dataset m (apply_config_to_dataset m d s) s = false := by
  cases h : m.get_config s with
  | none => simp [should_update_dataset, apply_config_to_dataset, h]
  | some config =>
    simp only [should_update_dataset, apply_config_to_dataset, h]
    cases t1 : truthyStr config.location <;>
      cases t2 : truthyOptStr config.description <;>
        cases t3 : config.labels.isEmpty <;>
          cases t4 : truthyOptInt config.default_table_expiration_ms <;>
            cases t5 : truthyOptInt config.default_partition_expiration_ms <;>
              simp [t1, t2, t3, t4, t5, labelsOrEmpty]

/-- C10: for a schema name with no registered configuration,
`apply_config_to_dataset` returns its dataset unchanged,
`should_update_dataset` returns false, and `get_replication_config`
returns `None`. -/
theorem C10_unregistered_schema_noop (m : DatasetConfigManager) (d : Dataset) (s : String)
    (h : m.get_config s = none) :
    apply_config_to_dataset m d s = d ∧
    should_update_dataset m d s = false ∧
    get_replication_config m s = none := by
  simp [apply_config_to_dataset, should_update_dataset, get_replication_config, h]

/-- C10 witness: the empty config manager holds nothing for
`unknown_schema`. -/
theorem C10_witness :
    ({} : DatasetConfigManager).get_config "unknown_schema" = none ∧
    apply_config_to_dataset {} { location := some "US" } "unknown_schema" =
      { location := some "US" } ∧
    should_update_dataset {} { location := some "US" } "unknown_schema" = false ∧
    get_replication_config {} "unknown_schema" = none :=
  ⟨rfl, C10_unregistered_schema_noop {} { location := some "US" } "unknown_schema" rfl⟩
